import Mathlib

/-!
Verification development for the enhanced-iterm-mcp-server repository
(src/index-python-api.ts): a shallow embedding of the session-hierarchy
tracker (windows/tabs/panes maps plus monotonic counters), the external
automation bridge (`executeITermPythonScript`, `cleanupOldScripts`), and
the tool handlers, together with theorems settling the frozen claims.

Modelling conventions:
* JS `Map<string, T>` objects are association lists `List (String × T)`
  with first-match lookup; `Map.set` replaces in place (keeping the
  original position) or appends, matching JS insertion-order semantics.
* JS object mutation through a shared reference (e.g.
  `targetPane.isActive = false`) is rendered by rewriting every stored
  entry structurally equal to the mutated object (`mutateEq`).  On the
  states the program actually builds, exactly one entry holds the object.
* Nested `TabInfo.panes` / `WindowInfo.tabs` maps in the source hold
  references to the very same objects as the three global maps; the
  embedding represents such a reference by the child's local identifier.
* Bridge calls are out-of-process; a handler receives the call's result
  as an explicit value: `throws` for an exec/parse failure (spawn
  failure, timeout, non-zero exit, unparseable stdout), `errorPayload`
  for a parsed JSON object carrying an `error` field, `ok` for a parsed
  success payload.  The `ChildProcess` shadow process, an external OS
  resource, is not represented.
-/

/-- First-match lookup in an association list, as JS `Map.get`. -/
def mapGet {α : Type} (m : List (String × α)) (k : String) : Option α :=
  match m with
  | [] => none
  | (k', v) :: rest => if k' = k then some v else mapGet rest k

/-- JS `Map.set`: replace in place if the key is present, else append. -/
def mapSet {α : Type} (m : List (String × α)) (k : String) (v : α) :
    List (String × α) :=
  match m with
  | [] => [(k, v)]
  | (k', v') :: rest =>
    if k' = k then (k, v) :: rest else (k', v') :: mapSet rest k v

/-- JS mutation of an object held by reference inside a map: every stored
entry structurally equal to the old object now shows the new value. -/
def mutateEq {α : Type} [DecidableEq α] (m : List (String × α))
    (old new : α) : List (String × α) :=
  m.map (fun kv => if kv.2 = old then (kv.1, new) else kv)

/-- Boolean test: `pat` is an initial segment of `s`. -/
def isPrefixB : List Char → List Char → Bool
  | [], _ => true
  | _ :: _, [] => false
  | a :: asr, b :: bs => a = b && isPrefixB asr bs

/-- Boolean test: `pat` occurs contiguously inside `s`
(JS `String.prototype.includes`). -/
def isInfixB (pat : List Char) : List Char → Bool
  | [] => isPrefixB pat []
  | c :: rest => isPrefixB pat (c :: rest) || isInfixB pat rest

/-- Boolean test: `pat` is a final segment of `s`
(JS `String.prototype.endsWith`). -/
def isSuffixB (pat s : List Char) : Bool :=
  isPrefixB pat.reverse s.reverse

/-! ### Decimal rendering of counters

A JS template literal renders the numeric counter in decimal.  The
fuel-based digit computation is structurally recursive so concrete
identifiers evaluate by kernel reduction. -/

/-- Little-endian decimal digits of `n`; `fuel ≥ n` suffices. -/
def decDigitsFuel : Nat → Nat → List Nat
  | _, 0 => []
  | 0, _ + 1 => []
  | fuel + 1, n + 1 => ((n + 1) % 10) :: decDigitsFuel fuel ((n + 1) / 10)

/-- Little-endian decimal digits of `n` (`[]` for `0`). -/
def decDigits (n : Nat) : List Nat := decDigitsFuel n n

/-- Value of a little-endian decimal digit list. -/
def ofDecDigits : List Nat → Nat
  | [] => 0
  | d :: ds => d + 10 * ofDecDigits ds

/-- Decimal string for a natural number, as a JS template literal
renders a (non-negative integral) number. -/
def natDecimalStr (n : Nat) : String :=
  if n = 0 then "0" else String.mk ((decDigits n).reverse.map Nat.digitChar)

/-- `` `${kind}-${counter}` ``: the local-identifier rendering used by
the handlers (`window-N`, `tab-N`, `pane-N`). -/
def mkLocalId (kind : String) (n : Nat) : String :=
  kind ++ "-" ++ natDecimalStr n

/-- Identifiers returned by `n` successive allocations of one kind
starting from counter value `c` (each allocation returns
`mkLocalId kind c` and bumps the counter). -/
def allocIds (kind : String) (c n : Nat) : List String :=
  (List.range n).map (fun i => mkLocalId kind (c + i))

/-! ### Data model (PaneInfo / TabInfo / WindowInfo, global state) -/

/-- Logical 2D position of a pane inside its tab. -/
structure Position where
  x : Int
  y : Int
deriving DecidableEq, Repr

/-- `PaneInfo` (src/index-python-api.ts): the `process` field, an
external OS handle used only for auxiliary output capture, is omitted. -/
structure PaneInfo where
  id : String
  sessionId : String
  output : List String
  windowId : String
  tabId : String
  position : Position
  isActive : Bool
  title : Option String
  workingDirectory : Option String
  foregroundJob : Option String
deriving DecidableEq, Repr

/-- `TabInfo`: `panes` holds references to the same objects as the
global pane map, represented here by their identifiers. -/
structure TabInfo where
  id : String
  windowId : String
  paneIds : List String
  activePaneId : Option String
  title : Option String
  color : Option String
deriving DecidableEq, Repr

/-- `WindowInfo`: `tabs` represented by tab identifiers. -/
structure WindowInfo where
  id : String
  tabIds : List String
  activeTabId : Option String
  title : Option String
deriving DecidableEq, Repr

/-- The module-level mutable state: three maps plus three counters. -/
structure TrackerState where
  windows : List (String × WindowInfo)
  tabs : List (String × TabInfo)
  panes : List (String × PaneInfo)
  windowCounter : Nat
  tabCounter : Nat
  paneCounter : Nat
deriving DecidableEq, Repr

/-- Initial module state: empty maps, zero counters. -/
def initState : TrackerState :=
  { windows := [], tabs := [], panes := [], windowCounter := 0,
    tabCounter := 0, paneCounter := 0 }

/-- The three record maps of the tracker (the counters are not records). -/
def trackerMaps (st : TrackerState) :
    List (String × WindowInfo) × List (String × TabInfo) ×
      List (String × PaneInfo) :=
  (st.windows, st.tabs, st.panes)

/-! ### External automation bridge -/

/-- Name of the transient script artifact written for one invocation
(`iterm_script_${Date.now()}.py`). -/
def tmpScriptPath (timestamp : Nat) : String :=
  "iterm_script_" ++ natDecimalStr timestamp ++ ".py"

/-- File-system actions performed by one bridge invocation. -/
inductive FsOp where
  | write (path : String)
  | unlink (path : String)
deriving DecidableEq, Repr

/-- Outcome of the awaited `exec` promise: `exited stdout stderr` when
the external process exits with code zero; `failed msg` when `exec`
rejects (spawn failure, enforced timeout, or non-zero exit). -/
inductive ExecOutcome where
  | exited (stdout stderr : String)
  | failed (msg : String)
deriving DecidableEq, Repr

/-- Observable behaviour of one `executeITermPythonScript` invocation:
its file-system trace, its returned / thrown result, and whether the
stderr log line was emitted. -/
structure BridgeRun where
  fsTrace : List FsOp
  result : Except String String
  stderrLogged : Bool

/-- `executeITermPythonScript`: writes the transient script, awaits the
external process, on success logs stderr when it is non-empty and does
not contain `"Warning"` and returns trimmed stdout, on failure rethrows
`Python execution failed: ...`; the `finally` block deletes the script
on every path. -/
def executeITermPythonScript (timestamp : Nat) (outcome : ExecOutcome) :
    BridgeRun :=
  let scriptPath := tmpScriptPath timestamp
  match outcome with
  | ExecOutcome.exited stdout stderr =>
    { fsTrace := [FsOp.write scriptPath, FsOp.unlink scriptPath],
      result := Except.ok stdout.trim,
      stderrLogged := stderr != "" && !(isInfixB "Warning".data stderr.data) }
  | ExecOutcome.failed msg =>
    { fsTrace := [FsOp.write scriptPath, FsOp.unlink scriptPath],
      result := Except.error ("Python execution failed: " ++ msg),
      stderrLogged := false }

/-- A file in the python-scripts directory at startup. -/
structure ScriptFile where
  name : String
  mtime : Nat
deriving DecidableEq, Repr

/-- `cleanupOldScripts`: at startup, delete every `iterm_script_*.py`
whose age exceeds 300000 ms; returns the surviving directory listing.
(`now - mtime` is truncated ℕ subtraction: a file with `mtime > now` is
kept, as in the source where the difference is negative.) -/
def cleanupOldScripts (now : Nat) (files : List ScriptFile) :
    List ScriptFile :=
  files.filter (fun f =>
    !(isPrefixB "iterm_script_".data f.name.data &&
      isSuffixB ".py".data f.name.data &&
      decide (300000 < now - f.mtime)))

/-! ### Bridge reply types, per generated script

`throws` covers a rejecting `executeITermPythonScript` as well as a
`JSON.parse` failure on its output — both land in the handler's `catch`.
`errorPayload` is a parsed object whose `error` field is set. -/

/-- Reply for the open-terminal script.  That script prints only the
success object on its exit-code-zero paths (its error paths
`sys.exit(1)`, which surfaces as `throws`), so no error-payload case
exists. -/
inductive OpenReply where
  | throws (msg : String)
  | ok (sessionId : String)
deriving DecidableEq, Repr

/-- Generic parsed bridge reply with success payload `α`. -/
inductive BridgeReply (α : Type) where
  | throws (msg : String)
  | errorPayload (err : String)
  | ok (data : α)
deriving DecidableEq, Repr

/-- Reply for the broadcast script: it always prints the success object
at exit code zero (the handler performs no `error`-field check), with a
per-session `(session_id, success)` breakdown. -/
inductive BroadcastReply where
  | throws (msg : String)
  | ok (results : List (String × Bool))
deriving DecidableEq, Repr

/-- Fields of the get-session-info success payload that the handler
copies into the tracked pane. -/
structure SessionInfoData where
  title : Option String
  workingDirectory : Option String
  foregroundJob : Option String
deriving DecidableEq, Repr

/-- What a handler gives back to the protocol layer: either returned
text content, or an exception thrown past the handler boundary. -/
inductive ToolResponse where
  | text (s : String)
  | thrown (msg : String)
deriving DecidableEq, Repr

/-- `true` exactly when the handler threw instead of returning. -/
def ToolResponse.isThrown : ToolResponse → Bool
  | ToolResponse.text _ => false
  | ToolResponse.thrown _ => true

/-- Stands for the message of the `TypeError` raised when a non-null
assertion `tabs.get(...)!` yields `undefined` and a property of it is
accessed; the surrounding `catch` sees this message. -/
def typeErrorMsg : String := "Cannot read properties of undefined"

/-- Rendering of the session-info payload inside the success message
(stands for `JSON.stringify(data, null, 2)`). -/
def renderSessionInfo (d : SessionInfoData) : String :=
  "title: " ++ d.title.getD "null" ++ "\nworking_directory: " ++
    d.workingDirectory.getD "null" ++ "\nforeground_job: " ++
    d.foregroundJob.getD "null"

/-- Rendering of the broadcast breakdown inside the success message
(stands for `JSON.stringify(data.broadcast_results, null, 2)`). -/
def renderBreakdown (results : List (String × Bool)) : String :=
  String.intercalate "\n"
    (results.map (fun r =>
      r.1 ++ ": " ++ (if r.2 then "success" else "failure")))


/-! ### Tool handlers -/

/-- The `open-terminal` handler.  All three local identifiers are
allocated (counters post-incremented) before the bridge call; on bridge
success one Pane, Tab and Window record are inserted; the `catch` block
rethrows a wrapped error. -/
def openTerminal (st : TrackerState) (workingDirectory : Option String)
    (bridge : OpenReply) : TrackerState × ToolResponse :=
  let windowId := mkLocalId "window" st.windowCounter
  let tabId := mkLocalId "tab" st.tabCounter
  let paneId := mkLocalId "pane" st.paneCounter
  let st1 := { st with windowCounter := st.windowCounter + 1,
                       tabCounter := st.tabCounter + 1,
                       paneCounter := st.paneCounter + 1 }
  match bridge with
  | OpenReply.throws msg =>
    (st1, ToolResponse.thrown ("Failed to create terminal: " ++ msg))
  | OpenReply.ok sessionId =>
    let pane : PaneInfo :=
      { id := paneId, sessionId := sessionId, output := [],
        windowId := windowId, tabId := tabId,
        position := { x := 0, y := 0 }, isActive := true,
        title := none, workingDirectory := workingDirectory,
        foregroundJob := none }
    let tab : TabInfo :=
      { id := tabId, windowId := windowId, paneIds := [paneId],
        activePaneId := some paneId, title := none, color := none }
    let window : WindowInfo :=
      { id := windowId, tabIds := [tabId], activeTabId := some tabId,
        title := none }
    ({ st1 with panes := mapSet st1.panes paneId pane,
                tabs := mapSet st1.tabs tabId tab,
                windows := mapSet st1.windows windowId window },
     ToolResponse.text ("Terminal opened - Window: " ++ windowId ++
       ", Tab: " ++ tabId ++ ", Pane: " ++ paneId ++ ", Session: " ++
       sessionId))

/-- Panes currently flagged active, in map iteration order
(`Array.from(panes.values()).filter(p => p.isActive)`). -/
def activePanesOf (st : TrackerState) : List PaneInfo :=
  (st.panes.map Prod.snd).filter (fun p => p.isActive)

/-- Default-pane resolution used by the split handlers when no explicit
`paneId` is supplied: the first active pane in iteration order. -/
def resolveDefaultPane (st : TrackerState) : Option PaneInfo :=
  (activePanesOf st).head?

/-- Target-pane resolution of the split handlers: explicit lookup with
a `Pane ... not found` message, or default-active with
`No active pane found`. -/
def resolveSplitTarget (st : TrackerState) (paneIdArg : Option String) :
    Except String PaneInfo :=
  match paneIdArg with
  | some pid =>
    match mapGet st.panes pid with
    | none => Except.error ("Pane " ++ pid ++ " not found")
    | some p => Except.ok p
  | none =>
    match resolveDefaultPane st with
    | none => Except.error "No active pane found"
    | some p => Except.ok p

/-- Orientation of a split operation. -/
inductive SplitDir where
  | horizontal
  | vertical
deriving DecidableEq, Repr

/-- Adverb used in the split handlers' messages. -/
def splitVerb : SplitDir → String
  | SplitDir.horizontal => "horizontally"
  | SplitDir.vertical => "vertically"

/-- New-pane logical position: one unit below the source for a
horizontal split, one unit to the right for a vertical split. -/
def splitOffset (dir : SplitDir) (p : Position) : Position :=
  match dir with
  | SplitDir.horizontal => { x := p.x, y := p.y + 1 }
  | SplitDir.vertical => { x := p.x + 1, y := p.y }

/-- The `split-terminal-horizontal` / `split-terminal-vertical` handler.
Resolution failures return before the new pane identifier is allocated;
the identifier is allocated before the bridge call; on success the new
pane is added to its tab and to the global pane map and the source pane
is demoted; the `catch` block rethrows a wrapped error. -/
def splitTerminal (dir : SplitDir) (st : TrackerState)
    (paneIdArg : Option String) (bridge : BridgeReply String) :
    TrackerState × ToolResponse :=
  match resolveSplitTarget st paneIdArg with
  | Except.error m => (st, ToolResponse.text m)
  | Except.ok targetPane =>
    let newPaneId := mkLocalId "pane" st.paneCounter
    let st1 := { st with paneCounter := st.paneCounter + 1 }
    match bridge with
    | BridgeReply.throws msg =>
      (st1, ToolResponse.thrown
        ("Failed to split pane " ++ splitVerb dir ++ ": " ++ msg))
    | BridgeReply.errorPayload err =>
      (st1, ToolResponse.text ("Error: " ++ err))
    | BridgeReply.ok newSessionId =>
      match mapGet st1.tabs targetPane.tabId with
      | none =>
        -- `tabs.get(...)!` returned undefined: the TypeError raised on
        -- the next property access is caught and rethrown wrapped
        (st1, ToolResponse.thrown
          ("Failed to split pane " ++ splitVerb dir ++ ": " ++
            typeErrorMsg))
      | some tab =>
        let newPane : PaneInfo :=
          { id := newPaneId, sessionId := newSessionId, output := [],
            windowId := targetPane.windowId, tabId := targetPane.tabId,
            position := splitOffset dir targetPane.position,
            isActive := true, title := none, workingDirectory := none,
            foregroundJob := none }
        let tab' := { tab with paneIds :=
          if tab.paneIds.contains newPaneId then tab.paneIds
          else tab.paneIds ++ [newPaneId] }
        let tabs' := mapSet st1.tabs targetPane.tabId tab'
        let panes1 := mapSet st1.panes newPaneId newPane
        let panes2 :=
          mutateEq panes1 targetPane { targetPane with isActive := false }
        ({ st1 with tabs := tabs', panes := panes2 },
         ToolResponse.text ("Pane split " ++ splitVerb dir ++
           " - New pane: " ++ newPaneId ++ ", Session: " ++
           newSessionId))

/-- The `execute-command-in-pane` handler; its `catch` block returns
an error message (no rethrow). -/
def executeCommandInPane (st : TrackerState) (paneId command : String)
    (bridge : BridgeReply Unit) : ToolResponse :=
  match mapGet st.panes paneId with
  | none => ToolResponse.text ("Pane " ++ paneId ++ " not found")
  | some _ =>
    match bridge with
    | BridgeReply.throws msg =>
      ToolResponse.text ("Failed to execute command in pane " ++
        paneId ++ ": " ++ msg)
    | BridgeReply.errorPayload err =>
      ToolResponse.text ("Error: " ++ err)
    | BridgeReply.ok _ =>
      ToolResponse.text ("Command executed in pane " ++ paneId ++
        ": " ++ command)

/-- The `get-session-info` handler: on success it refreshes the cached
advisory fields of the tracked pane (object mutation through the shared
reference); its `catch` block returns an error message. -/
def getSessionInfo (st : TrackerState) (paneId : String)
    (bridge : BridgeReply SessionInfoData) :
    TrackerState × ToolResponse :=
  match mapGet st.panes paneId with
  | none => (st, ToolResponse.text ("Pane " ++ paneId ++ " not found"))
  | some pane =>
    match bridge with
    | BridgeReply.throws msg =>
      (st, ToolResponse.text ("Failed to get session info: " ++ msg))
    | BridgeReply.errorPayload err =>
      (st, ToolResponse.text ("Error: " ++ err))
    | BridgeReply.ok d =>
      let pane' := { pane with title := d.title,
                               workingDirectory := d.workingDirectory,
                               foregroundJob := d.foregroundJob }
      ({ st with panes := mutateEq st.panes pane pane' },
       ToolResponse.text ("Session Information for " ++ paneId ++
         ":\n" ++ renderSessionInfo d))

/-- The `get-session-details` handler (addressed by external session
identifier; no tracker access); its `catch` returns an error message.
The success payload is abstracted as its rendered text. -/
def getSessionDetails (sessionId : String)
    (bridge : BridgeReply String) : ToolResponse :=
  match bridge with
  | BridgeReply.throws msg =>
    ToolResponse.text ("Failed to read session content: " ++ msg)
  | BridgeReply.errorPayload err => ToolResponse.text ("Error: " ++ err)
  | BridgeReply.ok blob =>
    ToolResponse.text ("Detailed Session Information (" ++ sessionId ++
      "):\n" ++ blob)

/-- The `list-all-sessions` handler; its `catch` returns an error
message.  The success payload is abstracted as its rendered text. -/
def listAllSessions (bridge : BridgeReply String) : ToolResponse :=
  match bridge with
  | BridgeReply.throws msg =>
    ToolResponse.text ("Failed to list sessions: " ++ msg)
  | BridgeReply.errorPayload err => ToolResponse.text ("Error: " ++ err)
  | BridgeReply.ok blob =>
    ToolResponse.text ("iTerm2 Sessions Overview:\n" ++ blob)

/-! ### Tab color: the colour computation of the generated script -/

/-- Value of one hex digit, as Python `int(·, 16)` accepts them. -/
def hexDigitVal (c : Char) : Option Nat :=
  if '0' ≤ c ∧ c ≤ '9' then some (c.toNat - '0'.toNat)
  else if 'a' ≤ c ∧ c ≤ 'f' then some (c.toNat - 'a'.toNat + 10)
  else if 'A' ≤ c ∧ c ≤ 'F' then some (c.toNat - 'A'.toNat + 10)
  else none

/-- Accumulating base-16 parse of the remaining characters. -/
def parseHexNatAux : List Char → Nat → Option Nat
  | [], acc => some acc
  | c :: cs, acc =>
    match hexDigitVal c with
    | some v => parseHexNatAux cs (16 * acc + v)
    | none => none

/-- Python `int(s, 16)`: `none` on an empty slice or a non-hex
character (a `ValueError` in the script, surfacing as a bridge
failure). -/
def parseHexNat? (cs : List Char) : Option Nat :=
  if cs = [] then none else parseHexNatAux cs 0

/-- Python `str.lower()` on the colour name (character-wise ASCII
lowercasing suffices for the table's keys). -/
def lowerStr (s : String) : String := String.mk (s.data.map Char.toLower)

/-- The fixed named-colour table of the generated script. -/
def namedColorMap : List (String × (Rat × Rat × Rat)) :=
  [("red", (1, 0, 0)), ("green", (0, 1, 0)), ("blue", (0, 0, 1)),
   ("yellow", (1, 1, 0)), ("purple", (1, 0, 1)), ("cyan", (0, 1, 1)),
   ("orange", (1, 1/2, 0)), ("pink", (1, 7/10, 4/5))]

/-- Colour parsing of the `set-tab-color` script: a leading `#` selects
hex parsing of the byte pairs `[1:3]`, `[3:5]`, `[5:7]` each divided by
255; otherwise the lowercased name is looked up in the fixed table with
gray `(0.5, 0.5, 0.5)` as fallback.  Channels are exact rationals
standing for the script's floating-point divisions. -/
def parseTabColor (color : String) : Option (Rat × Rat × Rat) :=
  match color.data with
  | '#' :: hex =>
    match parseHexNat? (hex.take 2),
          parseHexNat? ((hex.drop 2).take 2),
          parseHexNat? ((hex.drop 4).take 2) with
    | some r, some g, some b =>
      some ((r : Rat) / 255, (g : Rat) / 255, (b : Rat) / 255)
    | _, _, _ => none
  | _ =>
    some ((mapGet namedColorMap (lowerStr color)).getD (1/2, 1/2, 1/2))

/-- The `set-tab-color` handler: on bridge success the tracked tab's
colour is refreshed (object mutation through the shared reference); its
`catch` block returns an error message. -/
def setTabColor (st : TrackerState) (paneId color : String)
    (bridge : BridgeReply Unit) : TrackerState × ToolResponse :=
  match mapGet st.panes paneId with
  | none => (st, ToolResponse.text ("Pane " ++ paneId ++ " not found"))
  | some pane =>
    match bridge with
    | BridgeReply.throws msg =>
      (st, ToolResponse.text ("Failed to set tab color: " ++ msg))
    | BridgeReply.errorPayload err =>
      (st, ToolResponse.text ("Error: " ++ err))
    | BridgeReply.ok _ =>
      match mapGet st.tabs pane.tabId with
      | none =>
        -- `tabs.get(...)!` returned undefined: the TypeError is caught
        -- by the same catch block and returned as text
        (st, ToolResponse.text ("Failed to set tab color: " ++
          typeErrorMsg))
      | some tab =>
        ({ st with tabs :=
            mutateEq st.tabs tab { tab with color := some color } },
         ToolResponse.text ("Tab color set to " ++ color ++
           " for pane " ++ paneId))

/-! ### monitor-session -/

/-- The zod input schema applies `default(10)` when the caller omits
`duration`. -/
def monitorDurationArg (supplied : Option Int) : Int :=
  supplied.getD 10

/-- The duration value interpolated into the generated script's polling
loop: `duration = ${duration || 10}` — a falsy (zero) number is
replaced by 10.  (JS numeric falsiness also covers NaN, which has no
counterpart in this integral model.) -/
def monitorScriptDuration (supplied : Option Int) : Int :=
  let duration := monitorDurationArg supplied
  if duration = 0 then 10 else duration

/-- Parameters of the generated monitor script. -/
structure MonitorScript where
  sessionId : String
  duration : Int
deriving DecidableEq, Repr

/-- The script the `monitor-session` handler generates for a tracked
pane: addressed by the pane's external session identifier, polling for
`monitorScriptDuration` seconds. -/
def monitorScript (st : TrackerState) (paneId : String)
    (supplied : Option Int) : Option MonitorScript :=
  (mapGet st.panes paneId).map (fun p =>
    { sessionId := p.sessionId,
      duration := monitorScriptDuration supplied })

/-- The `monitor-session` handler; its `catch` block returns an error
message.  The success payload (change log) is abstracted as its
rendered text. -/
def monitorSession (st : TrackerState) (paneId : String)
    (supplied : Option Int) (bridge : BridgeReply String) :
    ToolResponse :=
  match monitorScript st paneId supplied with
  | none => ToolResponse.text ("Pane " ++ paneId ++ " not found")
  | some _ =>
    match bridge with
    | BridgeReply.throws msg =>
      ToolResponse.text ("Failed to monitor session: " ++ msg)
    | BridgeReply.errorPayload err =>
      ToolResponse.text ("Error: " ++ err)
    | BridgeReply.ok blob =>
      ToolResponse.text ("Session Monitoring Results for " ++ paneId ++
        ":\n" ++ blob)

/-! ### broadcast-input -/

/-- `paneIds.filter(id => panes.has(id))`. -/
def broadcastValidPanes (st : TrackerState) (paneIds : List String) :
    List String :=
  paneIds.filter (fun pid => (mapGet st.panes pid).isSome)

/-- `validPanes.map(id => panes.get(id)!.sessionId)`: the external
session identifiers handed to the generated script.  (The `getD ""`
arm is unreachable: every filtered identifier is present.) -/
def broadcastSessionIds (st : TrackerState) (paneIds : List String) :
    List String :=
  (broadcastValidPanes st paneIds).map (fun pid =>
    ((mapGet st.panes pid).map (fun p => p.sessionId)).getD "")

/-- Behaviour of the generated broadcast script: scan the external
application's sessions in iteration order, and for each one whose
identifier is in the supplied list attempt the send and record a
per-session success flag. -/
def broadcastScriptResults (appSessions : List String)
    (sessionIds : List String) (sendOk : String → Bool) :
    List (String × Bool) :=
  (appSessions.filter (fun s => sessionIds.contains s)).map
    (fun s => (s, sendOk s))

/-- The `broadcast-input` handler.  With no tracked pane among
`paneIds` it fails before building a script; otherwise the bridge is
invoked on exactly `broadcastSessionIds`; the parsed reply is used
without an `error`-field check; the `catch` block returns an error
message. -/
def broadcastInput (st : TrackerState) (paneIds : List String)
    (command : String) (bridge : List String → BroadcastReply) :
    ToolResponse :=
  if broadcastValidPanes st paneIds = [] then
    ToolResponse.text "No valid panes found"
  else
    match bridge (broadcastSessionIds st paneIds) with
    | BroadcastReply.throws msg =>
      ToolResponse.text ("Failed to broadcast input: " ++ msg)
    | BroadcastReply.ok results =>
      ToolResponse.text ("Broadcast Results:\nCommand \"" ++ command ++
        "\" sent to " ++ natDecimalStr results.length ++ " panes\n" ++
        renderBreakdown results)

/-! ### Helper lemmas -/

theorem mapGet_mapSet_self {α : Type} (m : List (String × α)) (k : String)
    (v : α) : mapGet (mapSet m k v) k = some v := by
  induction m with
  | nil => simp [mapGet, mapSet]
  | cons kv rest ih =>
    obtain ⟨k', v'⟩ := kv
    by_cases h : k' = k
    · simp [mapGet, mapSet, h]
    · simp [mapGet, mapSet, h, ih]

theorem mapGet_mapSet_ne {α : Type} (m : List (String × α))
    (k k' : String) (v : α) (h : k' ≠ k) :
    mapGet (mapSet m k v) k' = mapGet m k' := by
  have h' : ¬ k = k' := fun hh => h hh.symm
  induction m with
  | nil => simp [mapGet, mapSet, h']
  | cons kv rest ih =>
    obtain ⟨k0, v0⟩ := kv
    by_cases h0 : k0 = k
    · subst h0
      simp [mapGet, mapSet, h']
    · simp [mapGet, mapSet, h0, ih]

theorem mapGet_mutateEq {α : Type} [DecidableEq α]
    (m : List (String × α)) (old new : α) (k : String) :
    mapGet (mutateEq m old new) k =
      (mapGet m k).map (fun v => if v = old then new else v) := by
  induction m with
  | nil => simp [mapGet, mutateEq]
  | cons kv rest ih =>
    obtain ⟨k0, v0⟩ := kv
    simp only [mutateEq, List.map_cons] at ih ⊢
    by_cases hv : v0 = old
    · rw [if_pos hv]
      by_cases h0 : k0 = k <;> simp [mapGet, h0, hv, ih]
    · rw [if_neg hv]
      by_cases h0 : k0 = k <;> simp [mapGet, h0, hv, ih]

theorem ofDecDigits_decDigitsFuel :
    ∀ fuel n, n ≤ fuel → ofDecDigits (decDigitsFuel fuel n) = n := by
  intro fuel
  induction fuel with
  | zero =>
    intro n hn
    interval_cases n
    simp [decDigitsFuel, ofDecDigits]
  | succ f ih =>
    intro n hn
    match n with
    | 0 => simp [decDigitsFuel, ofDecDigits]
    | m + 1 =>
      have hdiv : (m + 1) / 10 ≤ f := by
        have h1 : (m + 1) / 10 < m + 1 :=
          Nat.div_lt_self (Nat.succ_pos m) (by norm_num)
        omega
      simp only [decDigitsFuel, ofDecDigits, ih _ hdiv]
      exact Nat.mod_add_div (m + 1) 10

theorem decDigitsFuel_lt_ten :
    ∀ fuel n d, d ∈ decDigitsFuel fuel n → d < 10 := by
  intro fuel
  induction fuel with
  | zero =>
    intro n d hd
    match n with
    | 0 => simp [decDigitsFuel] at hd
    | m + 1 => simp [decDigitsFuel] at hd
  | succ f ih =>
    intro n d hd
    match n with
    | 0 => simp [decDigitsFuel] at hd
    | m + 1 =>
      simp only [decDigitsFuel, List.mem_cons] at hd
      rcases hd with h | h
      · subst h
        exact Nat.mod_lt _ (by norm_num)
      · exact ih _ _ h

theorem digitChar_inj_lt :
    ∀ a, a < 10 → ∀ b, b < 10 → Nat.digitChar a = Nat.digitChar b →
      a = b := by decide

theorem map_digitChar_inj :
    ∀ (l1 l2 : List Nat), (∀ x ∈ l1, x < 10) → (∀ x ∈ l2, x < 10) →
      l1.map Nat.digitChar = l2.map Nat.digitChar → l1 = l2 := by
  intro l1
  induction l1 with
  | nil =>
    intro l2 _ _ h
    match l2 with
    | [] => rfl
    | _ :: _ => simp at h
  | cons a l1 ih =>
    intro l2 h1 h2 h
    match l2 with
    | [] => simp at h
    | b :: l2 =>
      simp only [List.map_cons, List.cons.injEq] at h
      have ha : a = b :=
        digitChar_inj_lt a (h1 a (List.mem_cons_self a l1)) b
          (h2 b (List.mem_cons_self b l2)) h.1
      have hl : l1 = l2 :=
        ih l2 (fun x hx => h1 x (List.mem_cons_of_mem _ hx))
          (fun x hx => h2 x (List.mem_cons_of_mem _ hx)) h.2
      rw [ha, hl]

theorem natDecimalStr_inj :
    ∀ m n : Nat, natDecimalStr m = natDecimalStr n → m = n := by
  have hdata : ∀ k : Nat, k ≠ 0 →
      (natDecimalStr k).data = (decDigits k).reverse.map Nat.digitChar := by
    intro k hk
    simp [natDecimalStr, hk]
  have hzero : ∀ k : Nat, k ≠ 0 →
      (decDigits k).reverse.map Nat.digitChar = ['0'] → False := by
    intro k hk h
    have hrev : (decDigits k).reverse = [(0 : Nat)] := by
      match hr : (decDigits k).reverse with
      | [] => rw [hr] at h; simp at h
      | e :: rest =>
        rw [hr] at h
        simp only [List.map_cons, List.cons.injEq] at h
        have hrest : rest = [] := by
          have := h.2
          match rest with
          | [] => rfl
          | _ :: _ => simp at this
        have he : e ∈ decDigits k := by
          have : e ∈ (decDigits k).reverse := by rw [hr]; simp
          exact List.mem_reverse.mp this
        have he10 : e < 10 := decDigitsFuel_lt_ten _ _ _ he
        have he0 : e = 0 :=
          digitChar_inj_lt e he10 0 (by norm_num) h.1
        rw [hrest, he0]
    have hd : decDigits k = [(0 : Nat)] := by
      have := congrArg List.reverse hrev
      simpa using this
    have : k = 0 := by
      have h1 := ofDecDigits_decDigitsFuel k k (Nat.le_refl k)
      rw [show decDigitsFuel k k = decDigits k from rfl, hd] at h1
      simpa [ofDecDigits] using h1.symm
    exact hk this
  intro m n h
  by_cases hm : m = 0 <;> by_cases hn : n = 0
  · rw [hm, hn]
  · exfalso
    have hd := congrArg String.data h
    rw [hm] at hd
    have : (decDigits n).reverse.map Nat.digitChar = ['0'] := by
      rw [hdata n hn] at hd
      exact hd.symm
    exact hzero n hn this
  · exfalso
    have hd := congrArg String.data h
    rw [hn] at hd
    have : (decDigits m).reverse.map Nat.digitChar = ['0'] := by
      rw [hdata m hm] at hd
      exact hd
    exact hzero m hm this
  · have hd := congrArg String.data h
    rw [hdata m hm, hdata n hn] at hd
    have hb1 : ∀ x ∈ (decDigits m).reverse, x < 10 := fun x hx =>
      decDigitsFuel_lt_ten _ _ _ (List.mem_reverse.mp hx)
    have hb2 : ∀ x ∈ (decDigits n).reverse, x < 10 := fun x hx =>
      decDigitsFuel_lt_ten _ _ _ (List.mem_reverse.mp hx)
    have hrev := map_digitChar_inj _ _ hb1 hb2 hd
    have hdig : decDigits m = decDigits n := by
      have := congrArg List.reverse hrev
      simpa using this
    have h1 := ofDecDigits_decDigitsFuel m m (Nat.le_refl m)
    have h2 := ofDecDigits_decDigitsFuel n n (Nat.le_refl n)
    rw [show decDigitsFuel m m = decDigits m from rfl, hdig] at h1
    rw [show decDigitsFuel n n = decDigits n from rfl] at h2
    omega

theorem mkLocalId_inj (kind : String) (a b : Nat)
    (h : mkLocalId kind a = mkLocalId kind b) : a = b := by
  have hd := congrArg String.data h
  have hshape : ∀ k : Nat, (mkLocalId kind k).data =
      (kind.data ++ "-".data) ++ (natDecimalStr k).data := by
    intro k
    show (kind ++ "-" ++ natDecimalStr k).data = _
    simp [String.data_append, List.append_assoc]
  rw [hshape a, hshape b] at hd
  have hcancel := List.append_cancel_left hd
  have hstr : natDecimalStr a = natDecimalStr b := by
    cases ha : natDecimalStr a with
    | mk da =>
      cases hb : natDecimalStr b with
      | mk db =>
        rw [ha, hb] at hcancel
        simp only at hcancel
        rw [hcancel]
  exact natDecimalStr_inj a b hstr

theorem isPrefixB_iff : ∀ pat s : List Char,
    isPrefixB pat s = true ↔ ∃ r, s = pat ++ r := by
  intro pat
  induction pat with
  | nil => intro s; simp [isPrefixB]
  | cons a pat ih =>
    intro s
    match s with
    | [] => simp [isPrefixB]
    | b :: s' =>
      simp only [isPrefixB, Bool.and_eq_true, decide_eq_true_eq, ih s',
        List.cons_append, List.cons.injEq]
      constructor
      · rintro ⟨rfl, r, rfl⟩
        exact ⟨r, rfl, rfl⟩
      · rintro ⟨r, rfl, rfl⟩
        exact ⟨rfl, r, rfl⟩

theorem isInfixB_iff : ∀ pat s : List Char,
    isInfixB pat s = true ↔ ∃ l r, s = l ++ (pat ++ r) := by
  intro pat s
  induction s with
  | nil =>
    rw [show isInfixB pat [] = isPrefixB pat [] from rfl, isPrefixB_iff]
    constructor
    · rintro ⟨r, hr⟩
      exact ⟨[], r, by simpa using hr⟩
    · rintro ⟨l, r, hr⟩
      rcases List.append_eq_nil.mp hr.symm with ⟨hl, hpr⟩
      exact ⟨r, hpr.symm⟩
  | cons c rest ih =>
    rw [show isInfixB pat (c :: rest) =
      (isPrefixB pat (c :: rest) || isInfixB pat rest) from rfl,
      Bool.or_eq_true, isPrefixB_iff, ih]
    constructor
    · rintro (⟨r, hr⟩ | ⟨l, r, hr⟩)
      · exact ⟨[], r, by simpa using hr⟩
      · exact ⟨c :: l, r, by rw [hr]; rfl⟩
    · rintro ⟨l, r, hr⟩
      match l with
      | [] => exact Or.inl ⟨r, by simpa using hr⟩
      | x :: l' =>
        simp only [List.cons_append, List.cons.injEq] at hr
        exact Or.inr ⟨l', r, hr.2⟩

/-! ### Witness fixtures: a concrete tracker state with one window,
one tab and one active pane -/

/-- Concrete pane record used by witnesses. -/
def paneW : PaneInfo :=
  { id := "pane-0", sessionId := "w0t0p0:ABC", output := [],
    windowId := "window-0", tabId := "tab-0",
    position := { x := 0, y := 0 }, isActive := true,
    title := none, workingDirectory := none, foregroundJob := none }

/-- Concrete tab record used by witnesses. -/
def tabW : TabInfo :=
  { id := "tab-0", windowId := "window-0", paneIds := ["pane-0"],
    activePaneId := some "pane-0", title := none, color := none }

/-- Concrete window record used by witnesses. -/
def windowW : WindowInfo :=
  { id := "window-0", tabIds := ["tab-0"], activeTabId := some "tab-0",
    title := none }

/-- Concrete tracker state used by witnesses. -/
def stW : TrackerState :=
  { windows := [("window-0", windowW)], tabs := [("tab-0", tabW)],
    panes := [("pane-0", paneW)], windowCounter := 1, tabCounter := 1,
    paneCounter := 1 }

/-! ### Claims -/

/-- C8: every bridge invocation writes exactly one transient script file
before execution and deletes that same file afterwards on both the
success path and every failure path (timeout included), and startup
cleanup deletes every transient script artifact older than 5 minutes. -/
theorem C8_transient_script_hygiene (ts now : Nat) (oc : ExecOutcome)
    (f : ScriptFile) (files : List ScriptFile)
    (hmem : f ∈ files)
    (hpre : isPrefixB "iterm_script_".data f.name.data = true)
    (hsuf : isSuffixB ".py".data f.name.data = true)
    (hold : 300000 < now - f.mtime) :
    (executeITermPythonScript ts oc).fsTrace =
      [FsOp.write (tmpScriptPath ts), FsOp.unlink (tmpScriptPath ts)]
    ∧ f ∉ cleanupOldScripts now files := by
  constructor
  · cases oc <;> rfl
  · intro hin
    have hkeep := (List.mem_filter.mp hin).2
    simp [hpre, hsuf, hold] at hkeep

/-- Closed instance of C8 at a timed-out invocation and a stale
artifact. -/
theorem C8_transient_script_hygiene_witness :
    (executeITermPythonScript 5 (ExecOutcome.failed "timeout")).fsTrace =
      [FsOp.write (tmpScriptPath 5), FsOp.unlink (tmpScriptPath 5)]
    ∧ (⟨"iterm_script_1.py", 0⟩ : ScriptFile) ∉
        cleanupOldScripts 400000 [⟨"iterm_script_1.py", 0⟩] :=
  C8_transient_script_hygiene 5 400000 (ExecOutcome.failed "timeout")
    ⟨"iterm_script_1.py", 0⟩ [⟨"iterm_script_1.py", 0⟩]
    (by simp) (by decide) (by decide) (by decide)

/-- C9 as stated is false at stderr `"fatal Warning"` with exit code
zero: that stderr is non-empty and not "Warning"-prefixed, so the claim
predicts it is logged, but the bridge does not log it (the source
tests `stderr.includes('Warning')`, which also matches an interior
occurrence). -/
theorem C9_counterexample :
    (executeITermPythonScript 0
        (ExecOutcome.exited "out" "fatal Warning")).stderrLogged = false
    ∧ "fatal Warning" ≠ ""
    ∧ isPrefixB "Warning".data "fatal Warning".data = false := by
  refine ⟨rfl, by decide, by decide⟩

/-- C9 amended: with exit code zero the bridge succeeds with the
trimmed stdout no matter what stderr holds; the failure path never
reaches the stderr log check; and stderr is logged exactly when it is
non-empty and does not contain `"Warning"` anywhere. -/
theorem C9_stderr_logging (ts : Nat) (out err msg : String) :
    (executeITermPythonScript ts (ExecOutcome.exited out err)).result =
      Except.ok out.trim
    ∧ (executeITermPythonScript ts
        (ExecOutcome.failed msg)).stderrLogged = false
    ∧ ((executeITermPythonScript ts
          (ExecOutcome.exited out err)).stderrLogged = true ↔
        err ≠ "" ∧ ¬ ∃ l r, err.data = l ++ ("Warning".data ++ r)) := by
  refine ⟨rfl, rfl, ?_⟩
  show (err != "" && !(isInfixB "Warning".data err.data)) = true ↔ _
  rw [Bool.and_eq_true, bne_iff_ne, Bool.not_eq_true']
  constructor
  · rintro ⟨h1, h2⟩
    refine ⟨h1, fun hex => ?_⟩
    rw [(isInfixB_iff _ _).mpr hex] at h2
    cases h2
  · rintro ⟨h1, h2⟩
    refine ⟨h1, ?_⟩
    cases hb : isInfixB "Warning".data err.data
    · rfl
    · exact absurd ((isInfixB_iff _ _).mp hb) h2

/-- C10: an explicitly supplied falsy (zero) duration is replaced by
the default 10 seconds in the generated polling script, a non-zero
duration passes through unchanged, and an omitted duration defaults
to 10. -/
theorem C10_monitor_duration (st : TrackerState) (pid : String)
    (pane : PaneInfo) (d : Int)
    (hpane : mapGet st.panes pid = some pane) :
    monitorScript st pid (some 0) =
      some { sessionId := pane.sessionId, duration := 10 }
    ∧ (d ≠ 0 → monitorScript st pid (some d) =
        some { sessionId := pane.sessionId, duration := d })
    ∧ monitorScript st pid none =
        some { sessionId := pane.sessionId, duration := 10 } := by
  refine ⟨?_, fun hd => ?_, ?_⟩
  · simp [monitorScript, hpane, monitorScriptDuration, monitorDurationArg]
  · simp [monitorScript, hpane, monitorScriptDuration, monitorDurationArg,
      hd]
  · simp [monitorScript, hpane, monitorScriptDuration, monitorDurationArg]

/-- Closed instance of C10: duration 0 yields a 10-second script. -/
theorem C10_monitor_duration_witness :
    monitorScript stW "pane-0" (some 0) =
      some { sessionId := "w0t0p0:ABC", duration := 10 } :=
  (C10_monitor_duration stW "pane-0" paneW 5 rfl).1

/-- C4: allocations of one identifier kind return strictly increasing
numeric suffixes, the identifiers of any two distinct allocations in a
sequence differ, and a split whose bridge call then fails still
consumes its pane counter, so the identifier allocated for the failed
operation is never reissued. -/
theorem C4_identifier_allocation (kind : String) (c n i j : Nat)
    (st : TrackerState) (pid msg : String) (pane : PaneInfo)
    (hij : i < j) (hj : j < n)
    (hpane : mapGet st.panes pid = some pane) :
    c + i < c + j
    ∧ (allocIds kind c n)[i]? = some (mkLocalId kind (c + i))
    ∧ mkLocalId kind (c + i) ≠ mkLocalId kind (c + j)
    ∧ ((splitTerminal SplitDir.horizontal st (some pid)
        (BridgeReply.throws msg)).1).paneCounter = st.paneCounter + 1 := by
  refine ⟨by omega, ?_, ?_, ?_⟩
  · have hi : i < n := lt_trans hij hj
    rw [allocIds, List.getElem?_map, List.getElem?_range hi]
    rfl
  · intro h
    have := mkLocalId_inj kind _ _ h
    omega
  · simp [splitTerminal, resolveSplitTarget, hpane]

/-- Closed instance of C4: the second and third allocation of a
sequence differ. -/
theorem C4_identifier_allocation_witness :
    mkLocalId "pane" (0 + 1) ≠ mkLocalId "pane" (0 + 2) :=
  (C4_identifier_allocation "pane" 0 3 1 2 stW "pane-0" "boom" paneW
    (by decide) (by decide) rfl).2.2.1

/-- C6: `#FF0000` and `red` both yield channels (1, 0, 0); every name
in the fixed table yields its tuple; the unknown non-hex name
`chartreuse` falls back to gray (0.5, 0.5, 0.5); in general the three
hex byte pairs are parsed base-16 and divided by 255; and every
non-hex input (no leading `#`) whose lowercased form is not in the
table falls back to the same gray tuple. -/
theorem C6_tab_color_parsing (c1 c2 c3 c4 c5 c6 : Char)
    (v1 v2 v3 v4 v5 v6 : Nat)
    (h1 : hexDigitVal c1 = some v1) (h2 : hexDigitVal c2 = some v2)
    (h3 : hexDigitVal c3 = some v3) (h4 : hexDigitVal c4 = some v4)
    (h5 : hexDigitVal c5 = some v5) (h6 : hexDigitVal c6 = some v6) :
    parseTabColor "#FF0000" = some (1, 0, 0)
    ∧ parseTabColor "red" = some (1, 0, 0)
    ∧ parseTabColor "green" = some (0, 1, 0)
    ∧ parseTabColor "blue" = some (0, 0, 1)
    ∧ parseTabColor "yellow" = some (1, 1, 0)
    ∧ parseTabColor "purple" = some (1, 0, 1)
    ∧ parseTabColor "cyan" = some (0, 1, 1)
    ∧ parseTabColor "orange" = some (1, 1/2, 0)
    ∧ parseTabColor "pink" = some (1, 7/10, 4/5)
    ∧ parseTabColor "chartreuse" = some (1/2, 1/2, 1/2)
    ∧ parseTabColor (String.mk ['#', c1, c2, c3, c4, c5, c6]) =
        some (((16 * v1 + v2 : Nat) : Rat) / 255,
              ((16 * v3 + v4 : Nat) : Rat) / 255,
              ((16 * v5 + v6 : Nat) : Rat) / 255)
    ∧ (∀ color : String, color.data.head? ≠ some '#' →
        mapGet namedColorMap (lowerStr color) = none →
        parseTabColor color = some (1/2, 1/2, 1/2)) := by
  have e1 : parseHexNat? [c1, c2] = some (16 * v1 + v2) := by
    simp [parseHexNat?, parseHexNatAux, h1, h2]
  have e2 : parseHexNat? [c3, c4] = some (16 * v3 + v4) := by
    simp [parseHexNat?, parseHexNatAux, h3, h4]
  have e3 : parseHexNat? [c5, c6] = some (16 * v5 + v6) := by
    simp [parseHexNat?, parseHexNatAux, h5, h6]
  refine ⟨?_, ?_, ?_, ?_, ?_, ?_, ?_, ?_, ?_, ?_, ?_, ?_⟩
  · simp +decide [parseTabColor, lowerStr, mapGet, namedColorMap,
      parseHexNat?, parseHexNatAux, hexDigitVal]
  · simp +decide [parseTabColor, lowerStr, mapGet, namedColorMap]
  · simp +decide [parseTabColor, lowerStr, mapGet, namedColorMap]
  · simp +decide [parseTabColor, lowerStr, mapGet, namedColorMap]
  · simp +decide [parseTabColor, lowerStr, mapGet, namedColorMap]
  · simp +decide [parseTabColor, lowerStr, mapGet, namedColorMap]
  · simp +decide [parseTabColor, lowerStr, mapGet, namedColorMap]
  · simp +decide [parseTabColor, lowerStr, mapGet, namedColorMap]
  · simp +decide [parseTabColor, lowerStr, mapGet, namedColorMap]
  · simp +decide [parseTabColor, lowerStr, mapGet, namedColorMap]
  · show parseTabColor ⟨'#' :: [c1, c2, c3, c4, c5, c6]⟩ = _
    simp [parseTabColor, e1, e2, e3]
  · intro color hhex hunk
    simp only [parseTabColor]
    split
    next hex heq =>
      rw [heq] at hhex
      simp at hhex
    next =>
      rw [hunk]
      rfl

/-- Closed instance of C6's general hex rule at `#FF0000` and of its
universal gray fallback at the unknown non-hex name `teal`. -/
theorem C6_tab_color_parsing_witness :
    parseTabColor (String.mk ['#', 'F', 'F', '0', '0', '0', '0']) =
      some (((16 * 15 + 15 : Nat) : Rat) / 255,
            ((16 * 0 + 0 : Nat) : Rat) / 255,
            ((16 * 0 + 0 : Nat) : Rat) / 255)
    ∧ parseTabColor "teal" = some (1/2, 1/2, 1/2) :=
  ⟨(C6_tab_color_parsing 'F' 'F' '0' '0' '0' '0' 15 15 0 0 0 0
      (by decide) (by decide) (by decide) (by decide) (by decide)
      (by decide)).2.2.2.2.2.2.2.2.2.2.1,
   (C6_tab_color_parsing 'F' 'F' '0' '0' '0' '0' 15 15 0 0 0 0
      (by decide) (by decide) (by decide) (by decide) (by decide)
      (by decide)).2.2.2.2.2.2.2.2.2.2.2 "teal" (by decide) (by decide)⟩

/-- C7: with no explicit pane identifier, default-pane resolution fails
with "No active pane found" when the tracker holds zero panes — the
split returns that message unchanged-state and independently of the
bridge — and succeeds with some active pane whenever at least one
tracked pane has its active flag set. -/
theorem C7_default_pane_resolution (st : TrackerState) (dir : SplitDir)
    (b1 b2 : BridgeReply String) (p : PaneInfo) :
    (st.panes = [] →
      resolveDefaultPane st = none
      ∧ splitTerminal dir st none b1 =
          (st, ToolResponse.text "No active pane found")
      ∧ splitTerminal dir st none b1 = splitTerminal dir st none b2)
    ∧ (p ∈ st.panes.map Prod.snd → p.isActive = true →
        ∃ q, resolveDefaultPane st = some q ∧ q.isActive = true) := by
  constructor
  · intro hempty
    have hr : resolveDefaultPane st = none := by
      simp [resolveDefaultPane, activePanesOf, hempty]
    refine ⟨hr, ?_, ?_⟩ <;>
      simp [splitTerminal, resolveSplitTarget, hr]
  · intro hmem hact
    have hp : p ∈ activePanesOf st := by
      rw [activePanesOf, List.mem_filter]
      exact ⟨hmem, hact⟩
    cases hq : (activePanesOf st).head? with
    | none =>
      rw [List.head?_eq_none_iff] at hq
      rw [hq] at hp
      cases hp
    | some q =>
      have hqmem : q ∈ activePanesOf st := List.mem_of_mem_head? hq
      exact ⟨q, hq, (List.mem_filter.mp hqmem).2⟩

/-- Closed instance of C7: failure on the empty tracker, success on a
tracker with one active pane. -/
theorem C7_default_pane_resolution_witness :
    resolveDefaultPane initState = none
    ∧ ∃ q, resolveDefaultPane stW = some q ∧ q.isActive = true :=
  ⟨((C7_default_pane_resolution initState SplitDir.horizontal
      (BridgeReply.throws "x") (BridgeReply.throws "x") paneW).1 rfl).1,
   (C7_default_pane_resolution stW SplitDir.horizontal
      (BridgeReply.throws "x") (BridgeReply.throws "x") paneW).2
     (by decide) (by decide)⟩

/-- C5: broadcast with only unknown pane identifiers fails with "No
valid panes found" without consulting the bridge; with a mixed list the
unknown identifiers are silently dropped, exactly the known panes'
external session identifiers are handed to the bridge's send steps, and
(when those sessions exist externally) exactly they appear in the
returned per-session breakdown. -/
theorem C5_broadcast_filtering :
    (∀ st paneIds cmd (b1 b2 : List String → BroadcastReply),
      (∀ pid ∈ paneIds, mapGet st.panes pid = none) →
      broadcastInput st paneIds cmd b1 =
        ToolResponse.text "No valid panes found"
      ∧ broadcastInput st paneIds cmd b1 =
          broadcastInput st paneIds cmd b2)
    ∧ (∀ st paneIds, broadcastSessionIds st paneIds =
        paneIds.filterMap (fun pid =>
          (mapGet st.panes pid).map (fun p => p.sessionId)))
    ∧ (∀ st paneIds (app : List String) (sendOk : String → Bool),
        (∀ s ∈ broadcastSessionIds st paneIds, s ∈ app) →
        ∀ s, s ∈ (broadcastScriptResults app
            (broadcastSessionIds st paneIds) sendOk).map Prod.fst ↔
          s ∈ broadcastSessionIds st paneIds) := by
  refine ⟨?_, ?_, ?_⟩
  · intro st paneIds cmd b1 b2 hall
    have hvalid : broadcastValidPanes st paneIds = [] := by
      rw [broadcastValidPanes, List.filter_eq_nil]
      intro pid hpid
      simp [hall pid hpid]
    constructor <;> simp [broadcastInput, hvalid]
  · intro st paneIds
    induction paneIds with
    | nil => rfl
    | cons pid rest ih =>
      cases hp : mapGet st.panes pid with
      | none =>
        simpa [broadcastSessionIds, broadcastValidPanes, hp,
          List.filter_cons, List.filterMap_cons] using ih
      | some p =>
        simpa [broadcastSessionIds, broadcastValidPanes, hp,
          List.filter_cons, List.filterMap_cons] using ih
  · intro st paneIds app sendOk hsub s
    have hpair : ∀ l : List String,
        (l.map (fun t => (t, sendOk t))).map Prod.fst = l := by
      intro l
      induction l with
      | nil => rfl
      | cons t rest ih => simp [ih]
    have hmap : (broadcastScriptResults app (broadcastSessionIds st paneIds)
        sendOk).map Prod.fst =
        app.filter (fun t => (broadcastSessionIds st paneIds).contains t) := by
      rw [broadcastScriptResults, hpair]
    rw [hmap]
    constructor
    · intro hs
      have hcont := (List.mem_filter.mp hs).2
      simpa using hcont
    · intro hs
      refine List.mem_filter.mpr ⟨hsub s hs, ?_⟩
      simpa using hs

/-- Closed instance of C5: an all-unknown list fails, and a mixed
list's known session identifier appears in the breakdown. -/
theorem C5_broadcast_filtering_witness :
    broadcastInput stW ["ghost"] "ls" (fun _ => BroadcastReply.throws "x")
      = ToolResponse.text "No valid panes found"
    ∧ ("w0t0p0:ABC" ∈ (broadcastScriptResults ["w0t0p0:ABC"]
          (broadcastSessionIds stW ["ghost", "pane-0"])
          (fun _ => true)).map Prod.fst ↔
        "w0t0p0:ABC" ∈ broadcastSessionIds stW ["ghost", "pane-0"]) :=
  ⟨(C5_broadcast_filtering.1 stW ["ghost"] "ls"
      (fun _ => BroadcastReply.throws "x")
      (fun _ => BroadcastReply.throws "x") (by decide)).1,
   C5_broadcast_filtering.2.2 stW ["ghost", "pane-0"] ["w0t0p0:ABC"]
     (fun _ => true) (by decide) "w0t0p0:ABC"⟩

/-- C3: tracker record maps change only after a bridge call has
succeeded with an error-free payload: every failing bridge call and
every error-reporting payload leaves the windows/tabs/panes maps of
each tracker-mutating operation exactly as they were.  (The
open-terminal script prints no error payload at exit code zero, so its
only failure shape is a thrown bridge error.) -/
theorem C3_no_mutation_on_bridge_failure (st : TrackerState)
    (wd : Option String) (msg err : String) (pidArg : Option String)
    (pid color : String) :
    trackerMaps (openTerminal st wd (OpenReply.throws msg)).1 =
      trackerMaps st
    ∧ trackerMaps (splitTerminal SplitDir.horizontal st pidArg
        (BridgeReply.throws msg)).1 = trackerMaps st
    ∧ trackerMaps (splitTerminal SplitDir.horizontal st pidArg
        (BridgeReply.errorPayload err)).1 = trackerMaps st
    ∧ trackerMaps (splitTerminal SplitDir.vertical st pidArg
        (BridgeReply.throws msg)).1 = trackerMaps st
    ∧ trackerMaps (splitTerminal SplitDir.vertical st pidArg
        (BridgeReply.errorPayload err)).1 = trackerMaps st
    ∧ trackerMaps (getSessionInfo st pid
        (BridgeReply.throws msg)).1 = trackerMaps st
    ∧ trackerMaps (getSessionInfo st pid
        (BridgeReply.errorPayload err)).1 = trackerMaps st
    ∧ trackerMaps (setTabColor st pid color
        (BridgeReply.throws msg)).1 = trackerMaps st
    ∧ trackerMaps (setTabColor st pid color
        (BridgeReply.errorPayload err)).1 = trackerMaps st := by
  refine ⟨rfl, ?_, ?_, ?_, ?_, ?_, ?_, ?_, ?_⟩
  · cases hres : resolveSplitTarget st pidArg <;>
      simp [splitTerminal, hres, trackerMaps]
  · cases hres : resolveSplitTarget st pidArg <;>
      simp [splitTerminal, hres, trackerMaps]
  · cases hres : resolveSplitTarget st pidArg <;>
      simp [splitTerminal, hres, trackerMaps]
  · cases hres : resolveSplitTarget st pidArg <;>
      simp [splitTerminal, hres, trackerMaps]
  · cases hp : mapGet st.panes pid <;>
      simp [getSessionInfo, hp, trackerMaps]
  · cases hp : mapGet st.panes pid <;>
      simp [getSessionInfo, hp, trackerMaps]
  · cases hp : mapGet st.panes pid <;>
      simp [setTabColor, hp, trackerMaps]
  · cases hp : mapGet st.panes pid <;>
      simp [setTabColor, hp, trackerMaps]

/-- C1 as stated is false: an open-terminal bridge failure at the
initial state is rethrown as a wrapped exception past the handler
boundary instead of being returned as an error response. -/
theorem C1_counterexample :
    ((openTerminal initState none
        (OpenReply.throws "spawn failed")).2).isThrown = true := rfl

/-- C1 amended: for execute-command-in-pane, get-session-info,
get-session-details, set-tab-color, list-all-sessions, monitor-session
and broadcast-input a bridge failure is caught and converted to a
returned error response; but open-terminal, split-terminal-horizontal
and split-terminal-vertical catch the failure and rethrow it as a new
wrapped exception past the operation boundary. -/
theorem C1_bridge_failure_handling (st : TrackerState) (msg : String)
    (wd : Option String) (pid cmd color sid : String) (pane : PaneInfo)
    (dur : Option Int) (paneIds : List String)
    (hpane : mapGet st.panes pid = some pane) :
    ((openTerminal st wd (OpenReply.throws msg)).2).isThrown = true
    ∧ ((splitTerminal SplitDir.horizontal st (some pid)
        (BridgeReply.throws msg)).2).isThrown = true
    ∧ ((splitTerminal SplitDir.vertical st (some pid)
        (BridgeReply.throws msg)).2).isThrown = true
    ∧ (executeCommandInPane st pid cmd
        (BridgeReply.throws msg)).isThrown = false
    ∧ ((getSessionInfo st pid (BridgeReply.throws msg)).2).isThrown = false
    ∧ (getSessionDetails sid (BridgeReply.throws msg)).isThrown = false
    ∧ ((setTabColor st pid color
        (BridgeReply.throws msg)).2).isThrown = false
    ∧ (listAllSessions (BridgeReply.throws msg)).isThrown = false
    ∧ (monitorSession st pid dur
        (BridgeReply.throws msg)).isThrown = false
    ∧ (broadcastInput st paneIds cmd
        (fun _ => BroadcastReply.throws msg)).isThrown = false := by
  refine ⟨rfl, ?_, ?_, ?_, ?_, rfl, ?_, rfl, ?_, ?_⟩
  · simp [splitTerminal, resolveSplitTarget, hpane, ToolResponse.isThrown]
  · simp [splitTerminal, resolveSplitTarget, hpane, ToolResponse.isThrown]
  · simp [executeCommandInPane, hpane, ToolResponse.isThrown]
  · simp [getSessionInfo, hpane, ToolResponse.isThrown]
  · simp [setTabColor, hpane, ToolResponse.isThrown]
  · simp [monitorSession, monitorScript, hpane, ToolResponse.isThrown]
  · by_cases hv : broadcastValidPanes st paneIds = [] <;>
      simp [broadcastInput, hv, ToolResponse.isThrown]

/-- Closed instance of the amended C1: a failing horizontal split with
a resolved pane throws, a failing execute-command returns text. -/
theorem C1_bridge_failure_handling_witness :
    ((splitTerminal SplitDir.horizontal stW (some "pane-0")
        (BridgeReply.throws "boom")).2).isThrown = true
    ∧ (executeCommandInPane stW "pane-0" "ls"
        (BridgeReply.throws "boom")).isThrown = false :=
  ⟨(C1_bridge_failure_handling stW "boom" none "pane-0" "ls" "red" "sid"
      paneW none [] rfl).2.1,
   (C1_bridge_failure_handling stW "boom" none "pane-0" "ls" "red" "sid"
      paneW none [] rfl).2.2.2.1⟩

/-- C2: after a successful split of a resolved target pane (explicit
or default, either orientation) whose tab is tracked and whose fresh
pane identifier is unused, every tracker entry holding the target pane
now shows its active flag false, and the new pane's entry is active,
lies in the target's tab and window, and sits one unit along the split
axis from the target's position with the other coordinate unchanged. -/
theorem C2_split_effects (dir : SplitDir) (st : TrackerState)
    (pidArg : Option String) (targetPane : PaneInfo) (tab : TabInfo)
    (newSid : String)
    (hres : resolveSplitTarget st pidArg = Except.ok targetPane)
    (hfresh : mapGet st.panes (mkLocalId "pane" st.paneCounter) = none)
    (htab : mapGet st.tabs targetPane.tabId = some tab) :
    (∀ k, mapGet st.panes k = some targetPane →
      mapGet ((splitTerminal dir st pidArg
          (BridgeReply.ok newSid)).1).panes k =
        some { targetPane with isActive := false })
    ∧ (mapGet ((splitTerminal dir st pidArg
          (BridgeReply.ok newSid)).1).panes
        (mkLocalId "pane" st.paneCounter)).map
          (fun np => (np.isActive, np.tabId, np.windowId, np.position))
      = some (true, targetPane.tabId, targetPane.windowId,
          match dir with
          | SplitDir.horizontal =>
            { x := targetPane.position.x, y := targetPane.position.y + 1 }
          | SplitDir.vertical =>
            { x := targetPane.position.x + 1, y := targetPane.position.y }) := by
  have hstate : (splitTerminal dir st pidArg (BridgeReply.ok newSid)).1.panes
      = mutateEq
          (mapSet st.panes (mkLocalId "pane" st.paneCounter)
            { id := mkLocalId "pane" st.paneCounter, sessionId := newSid,
              output := [], windowId := targetPane.windowId,
              tabId := targetPane.tabId,
              position := splitOffset dir targetPane.position,
              isActive := true, title := none, workingDirectory := none,
              foregroundJob := none })
          targetPane { targetPane with isActive := false } := by
    simp [splitTerminal, hres, htab]
  have hposne : splitOffset dir targetPane.position ≠
      targetPane.position := by
    cases dir
    · intro h
      have hy := congrArg Position.y h
      simp only [splitOffset] at hy
      omega
    · intro h
      have hx := congrArg Position.x h
      simp only [splitOffset] at hx
      omega
  have hnpne :
      ({ id := mkLocalId "pane" st.paneCounter, sessionId := newSid,
         output := [], windowId := targetPane.windowId,
         tabId := targetPane.tabId,
         position := splitOffset dir targetPane.position,
         isActive := true, title := none, workingDirectory := none,
         foregroundJob := none } : PaneInfo) ≠ targetPane := by
    intro h
    exact hposne (congrArg PaneInfo.position h)
  constructor
  · intro k hk
    have hkne : k ≠ mkLocalId "pane" st.paneCounter := by
      intro hkk
      rw [hkk, hfresh] at hk
      cases hk
    rw [hstate, mapGet_mutateEq, mapGet_mapSet_ne _ _ _ _ hkne, hk]
    simp
  · rw [hstate, mapGet_mutateEq, mapGet_mapSet_self]
    simp only [Option.map_some', if_neg hnpne]
    cases dir <;> simp [splitOffset]

/-- Closed instance of C2: splitting the single active pane of `stW`
horizontally demotes it and creates an active neighbour below it. -/
theorem C2_split_effects_witness :
    mapGet ((splitTerminal SplitDir.horizontal stW (some "pane-0")
        (BridgeReply.ok "sid-new")).1).panes "pane-0" =
      some { paneW with isActive := false } :=
  (C2_split_effects SplitDir.horizontal stW (some "pane-0") paneW tabW
    "sid-new" rfl rfl rfl).1 "pane-0" rfl
